import Mathlib

/-!
Shallow embedding of the cdktf program in `src/main.ts` and
`src/unnamed/part_000` of the `psc-lab` repository.

Both files define a class `StackA extends TerraformStack` whose constructor
declares a fixed sequence of provider/resource constructs, then a top level
that creates one `App`, registers one `StackA` under the construct id `lab`,
and calls `app.synth()`.

A construct declaration is modelled as a `Resource`: its class name
(`resourceType`), its construct id (the second constructor argument), and the
mapping of property names to values.  A property value is a literal string,
boolean or number, or a back-reference `Value.ref cid attr` standing for the
cdktf token produced by reading attribute `attr` of the construct declared
with id `cid` (e.g. `network.name` becomes `Value.ref "network-a" "name"`).
Nested property blocks are flattened into dotted keys
(`template.containers.0.image`, `backend.0.group`, `natSubnets.0`,
`consumerAcceptLists.0.networkUrl`, …), preserving every value of the source.
-/

set_option maxRecDepth 4000

namespace PscLab

/-- A property value of a declared resource: a literal, or a back-reference
to another construct's attribute. -/
inductive Value where
  | str (s : String)
  | bool (b : Bool)
  | nat (n : Nat)
  | ref (constructId : String) (attr : String)
deriving DecidableEq

/-- One construct declaration: class name, construct id, and property map. -/
structure Resource where
  resourceType : String
  constructId : String
  props : List (String × Value)
deriving DecidableEq

/-- Look up a property value by name. -/
def Resource.prop (r : Resource) (k : String) : Option Value :=
  (r.props.find? (fun p => p.1 == k)).map (fun p => p.2)

/-- Look up a declared resource by construct id. -/
def findResource (rs : List Resource) (cid : String) : Option Resource :=
  rs.find? (fun r => r.constructId == cid)

/-- The construct ids of all declared resources, in declaration order. -/
def constructIds (rs : List Resource) : List String :=
  rs.map (fun r => r.constructId)

/-- Whether a value is a back-reference. -/
def Value.isRef : Value → Bool
  | .ref _ _ => true
  | _ => false

/-- The construct id a back-reference points at, if any. -/
def Value.refTarget : Value → Option String
  | .ref cid _ => some cid
  | _ => none

/-- The shared region constant (`const region = "europe-west2"`), used by
both source files. -/
def region : String := "europe-west2"

open Value

/-- The sequence of constructs declared by `StackA`'s constructor in
`src/main.ts`, in source order. -/
def stackAResources : List Resource :=
  [ { resourceType := "GoogleProvider", constructId := "google",
      props := [("project", str "project-a"), ("region", str region)] },
    { resourceType := "ComputeNetwork", constructId := "network-a",
      props := [("name", str "network-a"),
                ("autoCreateSubnetworks", bool false)] },
    { resourceType := "ComputeSubnetwork", constructId := "app-subnet",
      props := [("name", str "app-subnet"),
                ("network", ref "network-a" "name"),
                ("region", str region),
                ("ipCidrRange", str "10.0.0.0/24"),
                ("purpose", str "PRIVATE")] },
    { resourceType := "ComputeSubnetwork", constructId := "proxy-subnet",
      props := [("name", str "proxy-subnet"),
                ("network", ref "network-a" "name"),
                ("region", str region),
                ("ipCidrRange", str "10.0.1.0/24"),
                ("purpose", str "REGIONAL_MANAGED_PROXY"),
                ("role", str "ACTIVE")] },
    { resourceType := "ComputeSubnetwork", constructId := "psc-subnet",
      props := [("name", str "psc-subnet"),
                ("network", ref "network-a" "name"),
                ("region", str region),
                ("ipCidrRange", str "10.0.2.0/24"),
                ("purpose", str "PRIVATE_SERVICE_CONNECT")] },
    { resourceType := "CloudRunV2Service", constructId := "service",
      props := [("name", str "service"),
                ("location", str region),
                ("deletionProtection", bool false),
                ("ingress", str "INGRESS_TRAFFIC_INTERNAL_ONLY"),
                ("template.containers.0.image",
                 str "us-docker.pkg.dev/cloudrun/container/hello")] },
    { resourceType := "CloudRunV2ServiceIamMember", constructId := "invoker",
      props := [("name", ref "service" "name"),
                ("location", str region),
                ("role", str "roles/run.invoker"),
                ("member", str "allUsers")] },
    { resourceType := "ComputeAddress", constructId := "loadbalancer-address",
      props := [("name", str "loadbalancer-address"),
                ("region", str region),
                ("subnetwork", ref "app-subnet" "name"),
                ("addressType", str "INTERNAL"),
                ("address", str "10.0.0.10"),
                ("ipVersion", str "IPV4")] },
    { resourceType := "ComputeRegionNetworkEndpointGroup",
      constructId := "network-endpoint-group",
      props := [("name", str "network-endpoint-group"),
                ("region", str region),
                ("networkEndpointType", str "SERVERLESS"),
                ("cloudRun.service", ref "service" "name")] },
    { resourceType := "ComputeRegionBackendService",
      constructId := "backend-service",
      props := [("name", str "backend-service"),
                ("loadBalancingScheme", str "INTERNAL_MANAGED"),
                ("region", str region),
                ("protocol", str "HTTPS"),
                ("backend.0.group", ref "network-endpoint-group" "id")] },
    { resourceType := "ComputeRegionUrlMap", constructId := "loadbalancer",
      props := [("name", str "loadbalancer"),
                ("region", str region),
                ("defaultService", ref "backend-service" "id")] },
    { resourceType := "ComputeRegionTargetHttpProxy",
      constructId := "http-proxy",
      props := [("name", str "http-proxy"),
                ("region", str region),
                ("urlMap", ref "loadbalancer" "id")] },
    { resourceType := "ComputeForwardingRule", constructId := "forwarding-rule",
      props := [("name", str "forwarding-rule"),
                ("region", str region),
                ("ipProtocol", str "TCP"),
                ("loadBalancingScheme", str "INTERNAL_MANAGED"),
                ("portRange", str "80"),
                ("target", ref "http-proxy" "id"),
                ("network", ref "network-a" "name"),
                ("subnetwork", ref "app-subnet" "name"),
                ("ipAddress", ref "loadbalancer-address" "id"),
                ("networkTier", str "PREMIUM")] },
    { resourceType := "ComputeServiceAttachment",
      constructId := "psc-service-attachment",
      props := [("name", str "psc-service-attachment"),
                ("region", str region),
                ("targetService", ref "forwarding-rule" "id"),
                ("connectionPreference", str "ACCEPT_MANUAL"),
                ("natSubnets.0", ref "psc-subnet" "id"),
                ("enableProxyProtocol", bool false),
                ("consumerAcceptLists.0.networkUrl",
                 str "https://www.googleapis.com/compute/v1/projects/PROJECT-B/global/networks/default"),
                ("consumerAcceptLists.0.connectionLimit", nat 10)] },
    { resourceType := "ComputeAddress", constructId := "consumer-ip",
      props := [("name", str "consumer-ip"),
                ("region", str region),
                ("subnetwork", str "default"),
                ("addressType", str "INTERNAL"),
                ("address", str "10.154.0.5"),
                ("ipVersion", str "IPV4"),
                ("project", str "PROJECT-B")] },
    { resourceType := "ComputeForwardingRule",
      constructId := "forwarding-rule-psc",
      props := [("name", str "psc-forwarding-rule"),
                ("region", str region),
                ("network", str "default"),
                ("subnetwork", str "default"),
                ("target", ref "psc-service-attachment" "id"),
                ("project", str "PROJECT-B"),
                ("loadBalancingScheme", str ""),
                ("ipAddress", ref "consumer-ip" "id")] } ]

/-- The sequence of constructs declared by `StackA`'s constructor in
`src/unnamed/part_000`, in source order. -/
def stackAResourcesPart000 : List Resource :=
  [ { resourceType := "GoogleProvider", constructId := "google",
      props := [("project", str "PROJECT-A"), ("region", str region)] },
    { resourceType := "ComputeNetwork", constructId := "network-a",
      props := [("name", str "network-a"),
                ("autoCreateSubnetworks", bool false)] },
    { resourceType := "ComputeSubnetwork", constructId := "subnet-app",
      props := [("name", str "subnet-app"),
                ("network", ref "network-a" "name"),
                ("region", str region),
                ("ipCidrRange", str "10.0.0.0/24"),
                ("purpose", str "PRIVATE")] },
    { resourceType := "ComputeSubnetwork", constructId := "subnet-proxy",
      props := [("name", str "subnet-proxy"),
                ("network", ref "network-a" "name"),
                ("region", str region),
                ("ipCidrRange", str "10.0.1.0/24"),
                ("purpose", str "REGIONAL_MANAGED_PROXY"),
                ("role", str "ACTIVE")] },
    { resourceType := "ComputeSubnetwork", constructId := "subnet-psc",
      props := [("name", str "subnet-psc"),
                ("network", ref "network-a" "name"),
                ("region", str region),
                ("ipCidrRange", str "10.0.2.0/24"),
                ("purpose", str "PRIVATE_SERVICE_CONNECT")] },
    { resourceType := "CloudRunV2Service", constructId := "service",
      props := [("name", str "service"),
                ("location", str region),
                ("deletionProtection", bool false),
                ("ingress", str "INGRESS_TRAFFIC_INTERNAL_ONLY"),
                ("template.containers.0.image",
                 str "us-docker.pkg.dev/cloudrun/container/hello")] },
    { resourceType := "CloudRunV2ServiceIamMember", constructId := "invoker",
      props := [("name", ref "service" "name"),
                ("location", str region),
                ("role", str "roles/run.invoker"),
                ("member", str "allUsers")] },
    { resourceType := "ComputeAddress", constructId := "loadbalancer-address",
      props := [("name", str "loadbalancer-address"),
                ("region", str region),
                ("subnetwork", ref "subnet-app" "name"),
                ("addressType", str "INTERNAL"),
                ("address", str "10.0.0.10"),
                ("ipVersion", str "IPV4")] },
    { resourceType := "ComputeRegionNetworkEndpointGroup",
      constructId := "network-endpoint-group",
      props := [("name", str "network-endpoint-group"),
                ("region", str region),
                ("networkEndpointType", str "SERVERLESS"),
                ("cloudRun.service", ref "service" "name")] },
    { resourceType := "ComputeRegionBackendService",
      constructId := "backend-service",
      props := [("name", str "backend-service"),
                ("loadBalancingScheme", str "INTERNAL_MANAGED"),
                ("region", str region),
                ("protocol", str "HTTPS"),
                ("backend.0.group", ref "network-endpoint-group" "id")] },
    { resourceType := "ComputeRegionUrlMap", constructId := "url-map",
      props := [("name", str "url-map"),
                ("region", str region),
                ("defaultService", ref "backend-service" "id")] },
    { resourceType := "ComputeRegionTargetHttpProxy",
      constructId := "http-proxy",
      props := [("name", str "http-proxy"),
                ("region", str region),
                ("urlMap", ref "url-map" "id")] },
    { resourceType := "ComputeForwardingRule", constructId := "forwarding-rule",
      props := [("name", str "forwarding-rule"),
                ("region", str region),
                ("ipProtocol", str "TCP"),
                ("loadBalancingScheme", str "INTERNAL_MANAGED"),
                ("portRange", str "80"),
                ("target", ref "http-proxy" "id"),
                ("network", ref "network-a" "name"),
                ("subnetwork", ref "subnet-app" "name"),
                ("networkTier", str "PREMIUM")] },
    { resourceType := "ComputeServiceAttachment",
      constructId := "psc-service-attachment",
      props := [("name", str "psc-service-attachment"),
                ("region", str region),
                ("targetService", ref "forwarding-rule" "id"),
                ("connectionPreference", str "ACCEPT_MANUAL"),
                ("natSubnets.0", ref "subnet-psc" "id"),
                ("enableProxyProtocol", bool false),
                ("consumerAcceptLists.0.networkUrl",
                 str "https://www.googleapis.com/compute/v1/projects/PROJECT-B/global/networks/default"),
                ("consumerAcceptLists.0.connectionLimit", nat 10)] },
    { resourceType := "ComputeAddress", constructId := "consumer-ip",
      props := [("name", str "consumer-ip"),
                ("region", str region),
                ("subnetwork", str "default"),
                ("addressType", str "INTERNAL"),
                ("address", str "10.154.0.5"),
                ("ipVersion", str "IPV4"),
                ("project", str "PROJECT-B")] },
    { resourceType := "ComputeForwardingRule",
      constructId := "forwarding-rule-psc",
      props := [("name", str "psc-forwarding-rule"),
                ("region", str region),
                ("network", str "default"),
                ("subnetwork", str "default"),
                ("target", ref "psc-service-attachment" "id"),
                ("project", str "PROJECT-B"),
                ("loadBalancingScheme", str ""),
                ("ipAddress", ref "consumer-ip" "id")] } ]

/-- A stack registered into the app: the construct id it was registered
under, and the resources its constructor declared. -/
structure Stack where
  stackId : String
  resources : List Resource
deriving DecidableEq

/-- The `StackA` constructor of `src/main.ts`: `constructor(scope, id)` calls
`super(scope, id)` (registering the stack under `id`) and then declares the
fixed resource sequence.  Neither `scope` nor `id` influences any declared
resource. -/
def mkStackA (scope : String) (id : String) : Stack :=
  { stackId := id, resources := stackAResources }

/-- The `StackA` constructor of `src/unnamed/part_000`, likewise. -/
def mkStackAPart000 (scope : String) (id : String) : Stack :=
  { stackId := id, resources := stackAResourcesPart000 }

/-- One top-level action of the program's entry code. -/
inductive MainEvent where
  | newApp
  | registerStack (s : Stack)
  | synth
deriving DecidableEq

/-- Whether an event registers a stack. -/
def MainEvent.isRegisterStack : MainEvent → Bool
  | .registerStack _ => true
  | _ => false

/-- The top level of `src/main.ts`:
`const app = new App(); new StackA(app, "lab"); app.synth();`. -/
def mainTrace : List MainEvent :=
  [ .newApp, .registerStack (mkStackA "app" "lab"), .synth ]

/-- The top level of `src/unnamed/part_000`, identical in shape. -/
def mainTracePart000 : List MainEvent :=
  [ .newApp, .registerStack (mkStackAPart000 "app" "lab"), .synth ]

/-- Split a character list on a separator character (used to read the CIDR
string literals declared for the subnetworks). -/
def splitOnChar (sep : Char) : List Char → List (List Char)
  | [] => [[]]
  | c :: cs =>
    let rest := splitOnChar sep cs
    if c = sep then [] :: rest
    else
      match rest with
      | [] => [[c]]
      | g :: gs => (c :: g) :: gs

/-- The numeric value of a decimal digit character. -/
def digitVal (c : Char) : Option Nat :=
  if 48 ≤ c.toNat ∧ c.toNat ≤ 57 then some (c.toNat - 48) else none

/-- Accumulator loop for decimal parsing. -/
def parseDecAux : List Char → Nat → Option Nat
  | [], acc => some acc
  | c :: cs, acc =>
    match digitVal c with
    | some d => parseDecAux cs (acc * 10 + d)
    | none => none

/-- Parse a nonempty decimal digit string. -/
def parseDec : List Char → Option Nat
  | [] => none
  | cs => parseDecAux cs 0

/-- Parse a dotted-quad IPv4 address into its 32-bit numeric value. -/
def parseIPv4 (cs : List Char) : Option Nat :=
  match (splitOnChar '.' cs).mapM parseDec with
  | some [a, b, c, d] =>
    if a < 256 ∧ b < 256 ∧ c < 256 ∧ d < 256 then
      some (((a * 256 + b) * 256 + c) * 256 + d)
    else none
  | _ => none

/-- Parse an IPv4 CIDR literal such as `10.0.0.0/24` into its base address
and prefix length. -/
def parseCidr (s : String) : Option (Nat × Nat) :=
  match splitOnChar '/' s.data with
  | [ip, len] =>
    match parseIPv4 ip, parseDec len with
    | some base, some n => if n ≤ 32 then some (base, n) else none
    | _, _ => none
  | _ => none

/-- Two parsed CIDR blocks are disjoint when their address ranges do not
overlap. -/
def cidrDisjoint (a b : Nat × Nat) : Bool :=
  a.1 + 2 ^ (32 - a.2) ≤ b.1 || b.1 + 2 ^ (32 - b.2) ≤ a.1

/-- Disjointness lifted to possibly-unparsed CIDRs: both must parse and the
ranges must not overlap. -/
def optCidrDisjoint : Option (Nat × Nat) → Option (Nat × Nat) → Bool
  | some a, some b => cidrDisjoint a b
  | _, _ => false

/-- The parsed CIDR range a resource declares via its `ipCidrRange`
property. -/
def Resource.cidr (r : Resource) : Option (Nat × Nat) :=
  match r.prop "ipCidrRange" with
  | some (.str s) => parseCidr s
  | _ => none

/-- Whether the first character list is an initial segment of the second. -/
def charsLeading : List Char → List Char → Bool
  | [], _ => true
  | _, [] => false
  | a :: as, b :: bs => a == b && charsLeading as bs

/-- Whether the string `pre` starts the string `k` (used to gather the
flattened keys of one nested property block). -/
def keyStarts (pre k : String) : Bool :=
  charsLeading pre.data k.data

/-- Whether a value, if it is a back-reference, points at a construct id
declared in the given resource list (literals resolve trivially). -/
def refResolvesB (rs : List Resource) : Value → Bool
  | .ref cid _ => (constructIds rs).contains cid
  | _ => true

/-- The resource-type sequence the claim C10 lists, in its words: provider,
network, three subnetworks, Cloud Run service, IAM member, load-balancer
address, network endpoint group, backend service, url map, HTTP proxy,
forwarding rule, service attachment, consumer address, consumer forwarding
rule. -/
def claimedTypeSequence : List String :=
  ["GoogleProvider", "ComputeNetwork", "ComputeSubnetwork", "ComputeSubnetwork",
   "ComputeSubnetwork", "CloudRunV2Service", "CloudRunV2ServiceIamMember",
   "ComputeAddress", "ComputeRegionNetworkEndpointGroup",
   "ComputeRegionBackendService", "ComputeRegionUrlMap",
   "ComputeRegionTargetHttpProxy", "ComputeForwardingRule",
   "ComputeServiceAttachment", "ComputeAddress", "ComputeForwardingRule"]

/-- Claim C1: constructing StackA declares the target topology the spec
names: a virtual network (ComputeNetwork under construct id network-a),
three ComputeSubnetwork resources all attached to that network, a managed
compute service (CloudRunV2Service under id service), an internal load
balancer (a ComputeRegionBackendService with loadBalancingScheme
INTERNAL_MANAGED, fronted by the url map, the target HTTP proxy whose urlMap
references it, and the forwarding rule whose target references the proxy),
and a cross-project private-service connection (a ComputeServiceAttachment
plus the two consumer-side resources declared with project PROJECT-B, which
differs from the provider project). -/
theorem claim_C1 :
    (∃ r ∈ stackAResources,
       r.resourceType = "ComputeNetwork" ∧ r.constructId = "network-a") ∧
    (stackAResources.filter
       (fun r => r.resourceType == "ComputeSubnetwork")).length = 3 ∧
    (∀ r ∈ stackAResources, r.resourceType = "ComputeSubnetwork" →
       r.prop "network" = some (ref "network-a" "name")) ∧
    (∃ r ∈ stackAResources,
       r.resourceType = "CloudRunV2Service" ∧ r.constructId = "service") ∧
    (∃ r ∈ stackAResources, r.resourceType = "ComputeRegionBackendService" ∧
       r.prop "loadBalancingScheme" = some (str "INTERNAL_MANAGED")) ∧
    ((findResource stackAResources "loadbalancer").map
       (fun r => r.resourceType) = some "ComputeRegionUrlMap") ∧
    ((findResource stackAResources "http-proxy").bind
       (fun r => r.prop "urlMap") = some (ref "loadbalancer" "id")) ∧
    ((findResource stackAResources "forwarding-rule").bind
       (fun r => r.prop "target") = some (ref "http-proxy" "id")) ∧
    (∃ r ∈ stackAResources, r.resourceType = "ComputeServiceAttachment") ∧
    ((findResource stackAResources "consumer-ip").bind
       (fun r => r.prop "project") = some (str "PROJECT-B")) ∧
    ((findResource stackAResources "forwarding-rule-psc").bind
       (fun r => r.prop "project") = some (str "PROJECT-B")) ∧
    ((findResource stackAResources "google").bind
       (fun r => r.prop "project") = some (str "project-a")) ∧
    "project-a" ≠ "PROJECT-B" := by
  decide

/-- Claim C2: the private-service connection is wired without peering: the
service attachment targets the producer forwarding rule, uses the
PRIVATE_SERVICE_CONNECT subnet as its only NAT subnet, accepts exactly the
consumer project default network with connectionLimit 10, the consumer-side
forwarding rule is declared with project PROJECT-B and targets the service
attachment, and no resource of any VPC-peering type is declared anywhere in
the stack. -/
theorem claim_C2 :
    ((findResource stackAResources "psc-service-attachment").bind
       (fun r => r.prop "targetService") = some (ref "forwarding-rule" "id")) ∧
    ((findResource stackAResources "psc-service-attachment").bind
       (fun r => r.prop "natSubnets.0") = some (ref "psc-subnet" "id")) ∧
    ((findResource stackAResources "psc-subnet").bind
       (fun r => r.prop "purpose") = some (str "PRIVATE_SERVICE_CONNECT")) ∧
    ((findResource stackAResources "psc-service-attachment").bind
       (fun r => r.prop "consumerAcceptLists.0.networkUrl") = some (str
       "https://www.googleapis.com/compute/v1/projects/PROJECT-B/global/networks/default")) ∧
    ((findResource stackAResources "psc-service-attachment").bind
       (fun r => r.prop "consumerAcceptLists.0.connectionLimit")
       = some (nat 10)) ∧
    (∀ r ∈ stackAResources, r.constructId = "psc-service-attachment" →
       (r.props.filter (fun p => keyStarts "consumerAcceptLists." p.1
          || keyStarts "natSubnets." p.1)).length = 3) ∧
    ((findResource stackAResources "forwarding-rule-psc").bind
       (fun r => r.prop "project") = some (str "PROJECT-B")) ∧
    ((findResource stackAResources "forwarding-rule-psc").bind
       (fun r => r.prop "target") = some (ref "psc-service-attachment" "id")) ∧
    (∀ r ∈ stackAResources,
       r.resourceType ≠ "ComputeNetworkPeering" ∧
       r.resourceType ≠ "ComputeNetworkPeeringRoutesConfig" ∧
       r.resourceType ≠ "ServiceNetworkingConnection") := by
  decide

/-- Claim C3: the reference chain from the producer forwarding rule to the
Cloud Run service is unbroken (forwarding rule target to http proxy, proxy
urlMap to url map, url map defaultService to backend service, backend group
to network endpoint group, endpoint group cloudRun.service to the service),
and every back-reference anywhere in the declared graph points at a
construct id declared in the same program. -/
theorem claim_C3 :
    ((findResource stackAResources "forwarding-rule").bind
       (fun r => r.prop "target") = some (ref "http-proxy" "id")) ∧
    ((findResource stackAResources "http-proxy").bind
       (fun r => r.prop "urlMap") = some (ref "loadbalancer" "id")) ∧
    ((findResource stackAResources "loadbalancer").bind
       (fun r => r.prop "defaultService") = some (ref "backend-service" "id")) ∧
    ((findResource stackAResources "backend-service").bind
       (fun r => r.prop "backend.0.group")
       = some (ref "network-endpoint-group" "id")) ∧
    ((findResource stackAResources "network-endpoint-group").bind
       (fun r => r.prop "cloudRun.service") = some (ref "service" "name")) ∧
    ((findResource stackAResources "service").map
       (fun r => r.resourceType) = some "CloudRunV2Service") ∧
    (∀ r ∈ stackAResources, ∀ p ∈ r.props,
       refResolvesB stackAResources p.2 = true) := by
  decide

/-- Claim C4: the topology-semantic configuration strings are passed through
as the exact source literals: the three subnetwork purposes are PRIVATE,
REGIONAL_MANAGED_PROXY and PRIVATE_SERVICE_CONNECT in declaration order, the
backend service and the producer forwarding rule both carry
loadBalancingScheme INTERNAL_MANAGED, and the service attachment carries
connectionPreference ACCEPT_MANUAL; in the declared graph these values are
the literal strings themselves, not computed or transformed values. -/
theorem claim_C4 :
    ((stackAResources.filter
        (fun r => r.resourceType == "ComputeSubnetwork")).map
        (fun r => r.prop "purpose")
      = [some (str "PRIVATE"), some (str "REGIONAL_MANAGED_PROXY"),
         some (str "PRIVATE_SERVICE_CONNECT")]) ∧
    ((findResource stackAResources "backend-service").bind
       (fun r => r.prop "loadBalancingScheme")
       = some (str "INTERNAL_MANAGED")) ∧
    ((findResource stackAResources "forwarding-rule").bind
       (fun r => r.prop "loadBalancingScheme")
       = some (str "INTERNAL_MANAGED")) ∧
    ((findResource stackAResources "psc-service-attachment").bind
       (fun r => r.prop "connectionPreference")
       = some (str "ACCEPT_MANUAL")) := by
  decide

/-- Claim C5: StackA construction is deterministic and input-independent:
whatever scope and construct id the constructor receives, the declared
resource graph is the same list of resources with the same property values
in the same order.  mkStackA is a pure function of its arguments that never
reads them while building the resource list, so two runs coincide
definitionally. -/
theorem claim_C5 (scope id scope2 id2 : String) :
    (mkStackA scope id).resources = (mkStackA scope2 id2).resources := rfl

/-- Claim C5 witness: the determinism theorem applied at two concrete pairs
of constructor arguments. -/
theorem claim_C5_witness :
    (mkStackA "app" "lab").resources = (mkStackA "other" "elsewhere").resources :=
  claim_C5 "app" "lab" "other" "elsewhere"

/-- Claim C6: the program only produces and hands off the description: its
top level creates exactly one App, registers exactly one stack - StackA
under the construct id lab, declaring stackAResources - and its final action
is the single app.synth() call. -/
theorem claim_C6 :
    (mainTrace.countP (fun e => e == MainEvent.newApp)) = 1 ∧
    (mainTrace.countP MainEvent.isRegisterStack) = 1 ∧
    (MainEvent.registerStack (mkStackA "app" "lab")) ∈ mainTrace ∧
    (mkStackA "app" "lab").stackId = "lab" ∧
    (mkStackA "app" "lab").resources = stackAResources ∧
    (mainTrace.countP (fun e => e == MainEvent.synth)) = 1 ∧
    mainTrace.getLast? = some MainEvent.synth := by
  decide

/-- Claim C7: every declaration is consumed only through the declarative
resource interface: each declared resource has a resource type, a construct
id unique among all declarations of the stack, and a property map whose
every value is either a literal or a back-reference to the computed
attribute of another resource declared in the stack. -/
theorem claim_C7 :
    (constructIds stackAResources).Nodup ∧
    (∀ r ∈ stackAResources, ∀ p ∈ r.props,
       p.2.isRef = false ∨ refResolvesB stackAResources p.2 = true) := by
  decide

/-- Claim C8: the Cloud Run service is declared with ingress
INGRESS_TRAFFIC_INTERNAL_ONLY while the stack simultaneously grants
roles/run.invoker on that same service (the IAM member resource names the
service by back-reference) to the member allUsers: invocation is gated by
network ingress, not by IAM. -/
theorem claim_C8 :
    ((findResource stackAResources "service").bind
       (fun r => r.prop "ingress")
       = some (str "INGRESS_TRAFFIC_INTERNAL_ONLY")) ∧
    ((findResource stackAResources "invoker").map
       (fun r => r.resourceType) = some "CloudRunV2ServiceIamMember") ∧
    ((findResource stackAResources "invoker").bind
       (fun r => r.prop "name") = some (ref "service" "name")) ∧
    ((findResource stackAResources "invoker").bind
       (fun r => r.prop "role") = some (str "roles/run.invoker")) ∧
    ((findResource stackAResources "invoker").bind
       (fun r => r.prop "member") = some (str "allUsers")) := by
  decide

/-- Claim C9: all three subnetworks reference the network-a network and are
declared in europe-west2 - the one region constant every regional resource
of the stack uses for its region or location property - and their three
IPv4 CIDR literals parse to pairwise disjoint address ranges. -/
theorem claim_C9 :
    (stackAResources.filter
       (fun r => r.resourceType == "ComputeSubnetwork")).length = 3 ∧
    (∀ r ∈ stackAResources, r.resourceType = "ComputeSubnetwork" →
       r.prop "network" = some (ref "network-a" "name") ∧
       r.prop "region" = some (str "europe-west2")) ∧
    (∀ r ∈ stackAResources, ∀ p ∈ r.props,
       (p.1 = "region" → p.2 = str "europe-west2") ∧
       (p.1 = "location" → p.2 = str "europe-west2")) ∧
    ((stackAResources.filter
        (fun r => r.resourceType == "ComputeSubnetwork")).map
        (fun r => r.cidr)
      = [some (167772160, 24), some (167772416, 24), some (167772672, 24)]) ∧
    List.Pairwise (fun a b => optCidrDisjoint a b = true)
      ((stackAResources.filter
         (fun r => r.resourceType == "ComputeSubnetwork")).map
         (fun r => r.cidr)) := by
  decide

/-- Claim C10: the two source files declare the same sequence of resource
types in the same order (the sixteen-entry provider-to-consumer-forwarding-
rule sequence), while their construct id sequences differ, the producer
forwarding rule carries an ipAddress property only in src/main.ts, and the
provider projects differ (project-a versus PROJECT-A). -/
theorem claim_C10 :
    stackAResources.map (fun r => r.resourceType) = claimedTypeSequence ∧
    stackAResourcesPart000.map (fun r => r.resourceType)
      = claimedTypeSequence ∧
    constructIds stackAResources ≠ constructIds stackAResourcesPart000 ∧
    ((findResource stackAResources "forwarding-rule").bind
       (fun r => r.prop "ipAddress")
       = some (ref "loadbalancer-address" "id")) ∧
    ((findResource stackAResourcesPart000 "forwarding-rule").bind
       (fun r => r.prop "ipAddress") = none) ∧
    ((findResource stackAResources "google").bind
       (fun r => r.prop "project") = some (str "project-a")) ∧
    ((findResource stackAResourcesPart000 "google").bind
       (fun r => r.prop "project") = some (str "PROJECT-A")) := by
  decide

end PscLab
